import Mathlib

/-!
Shallow embedding of `src/app.py` of the Dynamic Knowledge Base Assistant
repository: a single-file Streamlit script that wires three optional
knowledge sources (a PDF URL, an uploaded PDF, a website URL) into a
combined vector-store-backed knowledge base and answers questions through
a remote chat agent.

Modelling conventions:
* A Streamlit render pass is one top-to-bottom execution of the script.
  Session state (`st.session_state`) and the `@st.cache_resource` cache of
  `load_knowledge_base` are threaded explicitly through `renderPass`.
* External library objects (`PgVector2`, the knowledge-base classes, the
  `Agent`) are modelled as records of the configuration the script passes
  to their constructors.
* Observable actions (widget rendering, `st.error` / `st.success` /
  `st.warning`, invoking `knowledge_base.load`, constructing and running
  the agent, the uncaught `TypeError` from `os.environ[k] = None`) are
  collected in an `Effect` log, in script order.
* The outcome of `assistant.run` is an oracle input (`AgentOutcome`) to the
  render pass: a normal response object, a `groq.APIStatusError`, or any
  other exception, each carrying its `str(e)` text.
-/

/-- `db_url` (app.py line 30): the fixed database connection string. -/
def db_url : String := "postgresql+psycopg://ai:ai@localhost:5532/ai"

/-- Every vector store in the script is configured with `GeminiEmbedder()`;
we record that backend as an opaque tag. -/
def geminiEmbedder : String := "GeminiEmbedder"

/-- The chat / knowledge-base model identifier used throughout the script. -/
def groqModelId : String := "llama3-70b-8192"

/-- Configuration record of a `PgVector2(...)` construction. -/
structure PgVector2 where
  collection : String
  db_url : String
  embedder : String
  deriving Repr, DecidableEq

/-- Configuration record of a `PDFUrlKnowledgeBase(...)` construction. -/
structure PDFUrlKnowledgeBase where
  model : String
  urls : List String
  vector_db : PgVector2
  deriving Repr, DecidableEq

/-- Configuration record of a `PDFKnowledgeBase(...)` construction
(`reader_chunk` records `PDFReader(chunk=True)`). -/
structure PDFKnowledgeBase where
  model : String
  path : String
  vector_db : PgVector2
  reader_chunk : Bool
  deriving Repr, DecidableEq

/-- Configuration record of a `WebsiteKnowledgeBase(...)` construction. -/
structure WebsiteKnowledgeBase where
  model : String
  urls : List String
  max_links : Nat
  vector_db : PgVector2
  deriving Repr, DecidableEq

/-- One of the three per-source knowledge bases, as stored in the
`sources` list of the combined knowledge base. -/
inductive SourceKB where
  | pdfUrl (kb : PDFUrlKnowledgeBase)
  | localPdf (kb : PDFKnowledgeBase)
  | website (kb : WebsiteKnowledgeBase)
  deriving Repr, DecidableEq

/-- Configuration record of a `CombinedKnowledgeBase(...)` construction. -/
structure CombinedKnowledgeBase where
  sources : List SourceKB
  vector_db : PgVector2
  deriving Repr, DecidableEq

/-- `create_pdf_url_knowledge_base` (app.py lines 69-80). Python truthiness
of the string argument: the guard `if pdf_url:` holds iff the string is
non-empty. -/
def create_pdf_url_knowledge_base (pdf_url : String) : Option PDFUrlKnowledgeBase :=
  if pdf_url ≠ "" then
    some { model := groqModelId
           urls := [pdf_url]
           vector_db := { collection := "pdf_url", db_url := db_url, embedder := geminiEmbedder } }
  else none

/-- `create_local_pdf_knowledge_base` (app.py lines 82-98). The uploaded
file is `none` when no file was uploaded; when present, its bytes are
written to a fresh temporary file whose OS-chosen name is the
`temp_pdf_path` oracle argument, and the reader is pointed at that path. -/
def create_local_pdf_knowledge_base (uploaded_file : Option String)
    (temp_pdf_path : String) : Option PDFKnowledgeBase :=
  match uploaded_file with
  | some _ =>
    some { model := groqModelId
           path := temp_pdf_path
           vector_db := { collection := "pdf_documents", db_url := db_url, embedder := geminiEmbedder }
           reader_chunk := true }
  | none => none

/-- `create_website_knowledge_base` (app.py lines 100-112). -/
def create_website_knowledge_base (website_url : String) : Option WebsiteKnowledgeBase :=
  if website_url ≠ "" then
    some { model := groqModelId
           urls := [website_url]
           max_links := 10
           vector_db := { collection := "website_documents", db_url := db_url, embedder := geminiEmbedder } }
  else none

/-- `create_combined_knowledge_base` (app.py lines 114-135): collect the
builders' results for the populated inputs, and if the collected list is
non-empty wrap the non-null entries in a `CombinedKnowledgeBase` over the
`combined_documents` collection. -/
def create_combined_knowledge_base (pdf_url_input : String)
    (uploaded_pdf_file : Option String) (website_url_input : String)
    (temp_pdf_path : String) : Option CombinedKnowledgeBase :=
  let sources : List (Option SourceKB) :=
    (if pdf_url_input ≠ "" then
      [(create_pdf_url_knowledge_base pdf_url_input).map SourceKB.pdfUrl] else []) ++
    (if uploaded_pdf_file.isSome then
      [(create_local_pdf_knowledge_base uploaded_pdf_file temp_pdf_path).map SourceKB.localPdf] else []) ++
    (if website_url_input ≠ "" then
      [(create_website_knowledge_base website_url_input).map SourceKB.website] else [])
  if sources ≠ [] then
    some { sources := sources.filterMap id
           vector_db := { collection := "combined_documents", db_url := db_url, embedder := geminiEmbedder } }
  else none

/-- Does the character list `pat` lead (start) the character list `s`? -/
def leadsWith : List Char → List Char → Bool
  | [], _ => true
  | _ :: _, [] => false
  | p :: ps, c :: cs => p == c && leadsWith ps cs

/-- Does `pat` occur contiguously in `s`? -/
def occursIn (pat : List Char) : List Char → Bool
  | [] => leadsWith pat []
  | c :: cs => leadsWith pat (c :: cs) || occursIn pat cs

/-- Python's substring operator `pat in s` for strings (app.py line 189
uses `"Request too large" in str(e)`). -/
def pyStrIn (pat s : String) : Bool := occursIn pat.data s.data

/-- The marker matched on app.py line 189. -/
def requestTooLargeMarker : String := "Request too large"

/-- `st.error` message of app.py line 26. -/
def missingKeysMsg : String := "Missing API Keys! Check your .env file."

/-- `st.success` message of app.py line 152. -/
def successMsg : String := "Knowledge Base Loaded Successfully!"

/-- `st.warning` message of app.py line 154. -/
def noSourcesMsg : String := "No knowledge bases available. Please configure at least one valid source."

/-- `st.error` message of app.py line 190. -/
def tooLargeMsg : String :=
  "The request is too large for the model to handle. Please shorten your query or provide more specific input."

/-- Configuration record of `PgAgentStorage(...)` (app.py line 138). -/
structure PgAgentStorage where
  table_name : String
  db_url : String
  deriving Repr, DecidableEq

/-- `storage` (app.py line 138). -/
def storage : PgAgentStorage := { table_name := "website_assistant", db_url := db_url }

/-- Configuration record of the `Agent(...)` construction (app.py lines 169-179). -/
structure Agent where
  model : String
  run_id : Option String
  user_id : String
  knowledge_base : CombinedKnowledgeBase
  storage : PgAgentStorage
  show_tool_calls : Bool
  search_knowledge : Bool
  read_chat_history : Bool
  max_tokens : Nat
  deriving Repr, DecidableEq

/-- The agent built for a given combined knowledge base (app.py lines 169-179;
`run_id` is the module-level `run_id: Optional[str] = None` of line 163). -/
def mkAgent (kb : CombinedKnowledgeBase) : Agent :=
  { model := groqModelId
    run_id := none
    user_id := "user"
    knowledge_base := kb
    storage := storage
    show_tool_calls := false
    search_knowledge := true
    read_chat_history := true
    max_tokens := 5000 }

/-- The object returned by a normal `assistant.run(...)` call: `content` is
the `content` attribute when the object has one, and `str_value` is the
`str(response)` conversion. -/
structure RunResponse where
  content : Option String
  str_value : String
  deriving Repr, DecidableEq

/-- Oracle for what `assistant.run(user_input)` (app.py line 182) does:
return normally, raise `groq.APIStatusError` (with `str(e) = msg`), or
raise any other exception (with `str(e) = msg`). -/
inductive AgentOutcome where
  | ok (response : RunResponse)
  | apiStatusError (msg : String)
  | otherException (msg : String)
  deriving Repr, DecidableEq

/-- Observable effects of one render pass, in script order. -/
inductive Effect where
  | widget (descr : String)
  | stError (msg : String)
  | stSuccess (msg : String)
  | stWarning (msg : String)
  | kbBuild
  | kbLoad (kb : CombinedKnowledgeBase) (recreate : Bool)
  | agentCreated (agent : Agent)
  | agentRun (question : String)
  | pythonTypeError
  deriving Repr, DecidableEq

/-- `st.session_state`: the `load_knowledge_base` flag (set on line 66, read
on line 149 with default `False`) and the `chat_history` transcript
(initialised empty on lines 165-166). -/
structure SessionState where
  load_knowledge_base : Bool
  chat_history : List (String × String)
  deriving Repr, DecidableEq

/-- Full mutable state across render passes: the session state plus the
`@st.cache_resource` cache of `load_knowledge_base` (`none` while the
function has not yet run in this process/session). -/
structure AppState where
  session : SessionState
  lkb_cache : Option (Option CombinedKnowledgeBase)
  deriving Repr, DecidableEq

/-- State on first visit: empty transcript, flag unset, cache cold. -/
def initialState : AppState :=
  { session := { load_knowledge_base := false, chat_history := [] }, lkb_cache := none }

/-- Per-render-pass inputs: the widget values, whether the load button was
clicked this pass, plus the two oracles (the OS-chosen temporary file path
and the agent-call outcome). -/
structure RenderInputs where
  pdf_url_input : String
  uploaded_pdf_file : Option String
  website_url_input : String
  load_button_clicked : Bool
  user_input : String
  temp_pdf_path : String
  agent_outcome : AgentOutcome
  deriving Repr, DecidableEq

/-- Body of `load_knowledge_base` (app.py lines 141-145): build the combined
knowledge base and, when non-null, call `knowledge_base.load(recreate=True)`.
The `kbBuild` effect marks that the body actually executed. -/
def load_knowledge_base_body (inp : RenderInputs) :
    Option CombinedKnowledgeBase × List Effect :=
  let knowledge_base := create_combined_knowledge_base inp.pdf_url_input
    inp.uploaded_pdf_file inp.website_url_input inp.temp_pdf_path
  match knowledge_base with
  | some kb => (some kb, [Effect.kbBuild, Effect.kbLoad kb true])
  | none => (none, [Effect.kbBuild])

/-- `load_knowledge_base` under `@st.cache_resource` (app.py line 140): on a
cache hit the cached value is returned with no effects; on a miss the body
runs once and its result is cached. Returns (value, new cache, effects). -/
def load_knowledge_base (cache : Option (Option CombinedKnowledgeBase))
    (inp : RenderInputs) :
    Option CombinedKnowledgeBase × Option (Option CombinedKnowledgeBase) × List Effect :=
  match cache with
  | some v => (v, some v, [])
  | none =>
    let r := load_knowledge_base_body inp
    (r.1, some r.1, r.2)

/-- Line 183: `response.content if hasattr(response, 'content') else str(response)`. -/
def clean_response (response : RunResponse) : String :=
  match response.content with
  | some c => c
  | none => response.str_value

/-- The `try`/`except` block of app.py lines 181-194, acting on the current
transcript: on a normal return append the two turn entries; on
`groq.APIStatusError` route on the `"Request too large"` substring; on any
other exception show the generic unexpected-error banner. Exceptions leave
the transcript untouched. -/
def handle_question (chat_history : List (String × String)) (question : String)
    (outcome : AgentOutcome) : List (String × String) × List Effect :=
  match outcome with
  | AgentOutcome.ok response =>
    (chat_history ++ [("You", question), ("Assistant", clean_response response)], [])
  | AgentOutcome.apiStatusError msg =>
    if pyStrIn requestTooLargeMarker msg then
      (chat_history, [Effect.stError tooLargeMsg])
    else
      (chat_history, [Effect.stError ("An error occurred: " ++ msg)])
  | AgentOutcome.otherException msg =>
    (chat_history, [Effect.stError ("An unexpected error occurred: " ++ msg)])

/-- Widgets rendered before the load branch (app.py lines 33-66). -/
def headerWidgets : List Effect :=
  [Effect.widget "markdown:title",
   Effect.widget "markdown:input_sources_header",
   Effect.widget "text_input:pdf_url",
   Effect.widget "file_uploader:pdf",
   Effect.widget "text_input:website_url",
   Effect.widget "button:load_knowledge_base"]

/-- Widgets rendered between the load branch and the chat block
(app.py lines 157-162). -/
def chatHeaderWidgets : List Effect :=
  [Effect.widget "markdown:chat_header", Effect.widget "text_input:question"]

/-- One iteration of the display loop (app.py lines 199-203). -/
def render_chat_entry (e : String × String) : Effect :=
  if e.1 == "You" then Effect.widget ("chat_you:" ++ e.2)
  else Effect.widget ("chat_assistant:" ++ e.2)

/-- The display loop (app.py lines 199-203), in transcript order. -/
def display_chat_history : List (String × String) → List Effect
  | [] => []
  | e :: rest => render_chat_entry e :: display_chat_history rest

/-- The final cosmetic CSS block (app.py lines 206-227). -/
def cssWidget : List Effect := [Effect.widget "markdown:custom_css"]

/-- The load branch (app.py lines 148-154): when the session flag is set,
call the memoized `load_knowledge_base` and show the success or the
no-sources banner. Returns (knowledge_base, new cache, effects). -/
def renderLoadStep (s : AppState) (inp : RenderInputs) (flag : Bool) :
    Option CombinedKnowledgeBase × Option (Option CombinedKnowledgeBase) × List Effect :=
  if flag then
    let r := load_knowledge_base s.lkb_cache inp
    let banner := if r.1.isSome then [Effect.stSuccess successMsg]
                  else [Effect.stWarning noSourcesMsg]
    (r.1, r.2.1, r.2.2 ++ banner)
  else (none, s.lkb_cache, [])

/-- The chat block (app.py lines 168-196): guarded by
`if user_input and knowledge_base:`; when taken, the agent is constructed
and run and the `try`/`except` block updates the transcript. -/
def renderChatStep (chat_history : List (String × String)) (inp : RenderInputs)
    (knowledge_base : Option CombinedKnowledgeBase) :
    List (String × String) × List Effect :=
  if inp.user_input ≠ "" then
    match knowledge_base with
    | some kb =>
      let r := handle_question chat_history inp.user_input inp.agent_outcome
      (r.1, Effect.agentCreated (mkAgent kb) :: Effect.agentRun inp.user_input :: r.2)
    | none => (chat_history, [])
  else (chat_history, [])

/-- One render pass of the script body after the startup check (app.py
lines 33-227). Returns (new state, the pass's `knowledge_base` value, the
effect log in script order). -/
def renderPass (s : AppState) (inp : RenderInputs) :
    AppState × Option CombinedKnowledgeBase × List Effect :=
  let flag := inp.load_button_clicked || s.session.load_knowledge_base
  let ls := renderLoadStep s inp flag
  let cs := renderChatStep s.session.chat_history inp ls.1
  ({ session := { load_knowledge_base := flag, chat_history := cs.1 }, lkb_cache := ls.2.1 },
   ls.1,
   headerWidgets ++ ls.2.2 ++ chatHeaderWidgets ++ cs.2 ++ display_chat_history cs.1 ++ cssWidget)

/-- Outcome of the startup lines 18-27 of app.py. -/
inductive StartupOutcome where
  | pythonTypeError
  | missingKeys
  | proceed
  deriving Repr, DecidableEq

/-- Startup (app.py lines 18-27). `os.environ["GROQ_API_KEY"] =
os.getenv("GROQ_API_KEY")` (line 21) raises `TypeError: str expected, not
NoneType` when the variable is absent, before the explicit check of line 25
can run; line 22 does the same for the second key. Line 25's `not` is
Python string truthiness: an empty string fails the check. -/
def startup_check (groq_api_key google_api_key : Option String) : StartupOutcome :=
  match groq_api_key with
  | none => StartupOutcome.pythonTypeError
  | some g =>
    match google_api_key with
    | none => StartupOutcome.pythonTypeError
    | some k =>
      if g = "" || k = "" then StartupOutcome.missingKeys else StartupOutcome.proceed

/-- A whole script execution: the startup check, then (only on `proceed`)
the render pass. A `TypeError` aborts with an uncaught exception; the
missing-keys branch shows `st.error` and `st.stop`s. In both halting cases
no widget effect is emitted. -/
def script_pass (groq_api_key google_api_key : Option String) (s : AppState)
    (inp : RenderInputs) : AppState × Option CombinedKnowledgeBase × List Effect :=
  match startup_check groq_api_key google_api_key with
  | StartupOutcome.pythonTypeError => (s, none, [Effect.pythonTypeError])
  | StartupOutcome.missingKeys => (s, none, [Effect.stError missingKeysMsg])
  | StartupOutcome.proceed => renderPass s inp

/-- A session: a sequence of render passes from a starting state,
accumulating the effect logs. -/
def run_trace : AppState → List RenderInputs → AppState × List Effect
  | s, [] => (s, [])
  | s, inp :: rest =>
    let step := renderPass s inp
    let next := run_trace step.1 rest
    (next.1, step.2.2 ++ next.2)

/-- A session started from the initial state. -/
def run_script (inps : List RenderInputs) : AppState × List Effect :=
  run_trace initialState inps

/-- Transcript well-formedness: consecutive ("You", _), ("Assistant", _) pairs. -/
def wellPaired : List (String × String) → Bool
  | [] => true
  | (s1, _) :: (s2, _) :: rest => s1 == "You" && s2 == "Assistant" && wellPaired rest
  | [_] => false

/-- Is this effect an agent construction or invocation? -/
def isAgentEffect : Effect → Bool
  | Effect.agentCreated _ => true
  | Effect.agentRun _ => true
  | _ => false

/-- Does the effect log construct or invoke the chat agent? -/
def callsAgent (effs : List Effect) : Bool := effs.any isAgentEffect

/-- Is this effect an invocation of `knowledge_base.load`? -/
def isKbLoadEffect : Effect → Bool
  | Effect.kbLoad _ _ => true
  | _ => false

/-- Does the effect log invoke `knowledge_base.load`? -/
def invokesKbLoad (effs : List Effect) : Bool := effs.any isKbLoadEffect

/-- Is this effect an execution of the `load_knowledge_base` body? -/
def isKbBuildEffect : Effect → Bool
  | Effect.kbBuild => true
  | _ => false

/-- How many times did the (cached) `load_knowledge_base` body execute? -/
def countKbBuilds (effs : List Effect) : Nat := (effs.filter isKbBuildEffect).length

/-- Is this effect a rendered widget? -/
def isWidgetEffect : Effect → Bool
  | Effect.widget _ => true
  | _ => false

/-- Does the effect log render any widget? -/
def rendersWidget (effs : List Effect) : Bool := effs.any isWidgetEffect

/-- A quiescent render input: all sources empty, no click, no question. -/
def quietInputs : RenderInputs :=
  { pdf_url_input := ""
    uploaded_pdf_file := none
    website_url_input := ""
    load_button_clicked := false
    user_input := ""
    temp_pdf_path := "/tmp/upload.pdf"
    agent_outcome := AgentOutcome.otherException "network down" }

/-- A concrete combined knowledge base over one PDF-URL source, as the
aggregator builds it for input "https://e.com/d.pdf". -/
def sampleKB : CombinedKnowledgeBase :=
  { sources := [SourceKB.pdfUrl
      { model := groqModelId
        urls := ["https://e.com/d.pdf"]
        vector_db := { collection := "pdf_url", db_url := db_url, embedder := geminiEmbedder } }]
    vector_db := { collection := "combined_documents", db_url := db_url, embedder := geminiEmbedder } }

/-- A session state in which a load already happened and `sampleKB` is the
cached combined knowledge base. -/
def loadedState : AppState :=
  { session := { load_knowledge_base := true, chat_history := [] }
    lkb_cache := some (some sampleKB) }

/-- The question of the spec's example interaction. -/
def mlQuestion : String := "What is machine learning?"

/-- Inputs: the example question asked, with the agent returning a response
whose `content` attribute is present but empty. -/
def emptyContentInputs : RenderInputs :=
  { quietInputs with
    user_input := mlQuestion
    agent_outcome := AgentOutcome.ok { content := some "", str_value := "RunResponse" } }

/-- Inputs: the example question asked, with the agent answering normally. -/
def okInputs : RenderInputs :=
  { quietInputs with
    user_input := mlQuestion
    agent_outcome := AgentOutcome.ok
      { content := some "Machine learning is a subfield of AI.", str_value := "RunResponse" } }

/-- A provider error text containing the oversized-request marker. -/
def tooLargeErrText : String := "Error code: 413 - Request too large for model"

/-- Inputs: a question asked, with the agent call raising an exception that
is NOT a `groq.APIStatusError` but whose text contains the marker. -/
def otherExcTooLargeInputs : RenderInputs :=
  { quietInputs with
    user_input := "q"
    agent_outcome := AgentOutcome.otherException tooLargeErrText }

/-- Inputs: a question asked, with the agent call raising a
`groq.APIStatusError` whose text contains the marker. -/
def apiErrTooLargeInputs : RenderInputs :=
  { quietInputs with
    user_input := "q"
    agent_outcome := AgentOutcome.apiStatusError tooLargeErrText }

/-- Inputs: load requested with only the website source populated. -/
def websiteLoadInputs : RenderInputs :=
  { quietInputs with
    website_url_input := "https://e.com"
    load_button_clicked := true }

/-- Inputs: load requested with every source empty. -/
def emptyLoadInputs : RenderInputs :=
  { quietInputs with load_button_clicked := true }

/-- Inputs: a question asked, but no load ever requested. -/
def questionNoKbInputs : RenderInputs :=
  { quietInputs with user_input := mlQuestion }

/-- The combined handle the aggregator builds for `websiteLoadInputs`. -/
def websiteOnlyKB : CombinedKnowledgeBase :=
  { sources := [SourceKB.website
      { model := groqModelId
        urls := ["https://e.com"]
        max_links := 10
        vector_db := { collection := "website_documents", db_url := db_url, embedder := geminiEmbedder } }]
    vector_db := { collection := "combined_documents", db_url := db_url, embedder := geminiEmbedder } }

/-- C4: each of the three source builders returns `none` on an empty
locator; on a populated locator each returns a non-null handle bound to its
own dedicated vector-store collection, and the three collection names are
pairwise distinct. -/
theorem builders_empty_vs_populated (u w f tp : String) (hu : u ≠ "") (hw : w ≠ "") :
    (create_pdf_url_knowledge_base "" = none ∧
     create_local_pdf_knowledge_base none tp = none ∧
     create_website_knowledge_base "" = none) ∧
    ((create_pdf_url_knowledge_base u).isSome = true ∧
     (create_pdf_url_knowledge_base u).map (fun kb => kb.vector_db.collection) = some "pdf_url") ∧
    ((create_local_pdf_knowledge_base (some f) tp).isSome = true ∧
     (create_local_pdf_knowledge_base (some f) tp).map (fun kb => kb.vector_db.collection)
       = some "pdf_documents") ∧
    ((create_website_knowledge_base w).isSome = true ∧
     (create_website_knowledge_base w).map (fun kb => kb.vector_db.collection)
       = some "website_documents") ∧
    (("pdf_url" : String) ≠ "pdf_documents" ∧ ("pdf_url" : String) ≠ "website_documents" ∧
     ("pdf_documents" : String) ≠ "website_documents") := by
  refine ⟨⟨by simp [create_pdf_url_knowledge_base], rfl, by simp [create_website_knowledge_base]⟩,
    ⟨?_, ?_⟩, ⟨rfl, rfl⟩, ⟨?_, ?_⟩, by decide⟩ <;>
  simp [create_pdf_url_knowledge_base, create_website_knowledge_base, hu, hw]

/-- C4 witness: the builders evaluated at concrete locators. -/
theorem builders_empty_vs_populated_witness :
    (create_pdf_url_knowledge_base "" = none ∧
     create_local_pdf_knowledge_base none "/tmp/upload.pdf" = none ∧
     create_website_knowledge_base "" = none) ∧
    ((create_pdf_url_knowledge_base "https://e.com/d.pdf").isSome = true ∧
     (create_pdf_url_knowledge_base "https://e.com/d.pdf").map (fun kb => kb.vector_db.collection)
       = some "pdf_url") ∧
    ((create_local_pdf_knowledge_base (some "bytes") "/tmp/upload.pdf").isSome = true ∧
     (create_local_pdf_knowledge_base (some "bytes") "/tmp/upload.pdf").map
       (fun kb => kb.vector_db.collection) = some "pdf_documents") ∧
    ((create_website_knowledge_base "https://e.com").isSome = true ∧
     (create_website_knowledge_base "https://e.com").map (fun kb => kb.vector_db.collection)
       = some "website_documents") ∧
    (("pdf_url" : String) ≠ "pdf_documents" ∧ ("pdf_url" : String) ≠ "website_documents" ∧
     ("pdf_documents" : String) ≠ "website_documents") :=
  builders_empty_vs_populated "https://e.com/d.pdf" "https://e.com" "bytes" "/tmp/upload.pdf"
    (by decide) (by decide)

/-- C1 (counterexample): with the first credential absent entirely, the run
halts with the uncaught `TypeError` raised by `os.environ["GROQ_API_KEY"] =
None` (app.py line 21), and the user-visible "Missing API Keys" banner is
never emitted — contradicting the claim that a missing credential produces
that message. -/
theorem missing_key_no_banner_counterexample :
    (script_pass none (some "google-key") initialState quietInputs).2.2 = [Effect.pythonTypeError] ∧
    Effect.stError missingKeysMsg ∉ (script_pass none (some "google-key") initialState quietInputs).2.2 := by
  decide

/-- C1 (amended): if either credential is absent entirely, startup halts
before any widget with an uncaught `TypeError` (no "Missing API Keys"
banner); if both are present but either is empty, startup halts before any
widget with the "Missing API Keys" banner; if both are present and
non-empty, startup proceeds to the full render pass. -/
theorem startup_check_behavior (gs ks : String) (g2 : Option String) (s : AppState)
    (inp : RenderInputs) (hg : gs ≠ "") (hk : ks ≠ "") :
    (script_pass none g2 s inp).2.2 = [Effect.pythonTypeError] ∧
    rendersWidget (script_pass none g2 s inp).2.2 = false ∧
    (script_pass (some gs) none s inp).2.2 = [Effect.pythonTypeError] ∧
    (script_pass (some "") (some ks) s inp).2.2 = [Effect.stError missingKeysMsg] ∧
    (script_pass (some gs) (some "") s inp).2.2 = [Effect.stError missingKeysMsg] ∧
    rendersWidget (script_pass (some "") (some ks) s inp).2.2 = false ∧
    script_pass (some gs) (some ks) s inp = renderPass s inp := by
  refine ⟨rfl, rfl, rfl, ?_, ?_, ?_, ?_⟩ <;>
  simp [script_pass, startup_check, hg, hk, rendersWidget, isWidgetEffect]

/-- Unfolding lemma: the knowledge base a render pass works with is the
result of the load branch. -/
theorem renderPass_kb (s : AppState) (inp : RenderInputs) :
    (renderPass s inp).2.1
      = (renderLoadStep s inp (inp.load_button_clicked || s.session.load_knowledge_base)).1 := rfl

/-- Unfolding lemma: the transcript after a render pass is the chat block's
output on the load branch's knowledge base. -/
theorem renderPass_hist (s : AppState) (inp : RenderInputs) :
    (renderPass s inp).1.session.chat_history
      = (renderChatStep s.session.chat_history inp
          (renderLoadStep s inp (inp.load_button_clicked || s.session.load_knowledge_base)).1).1 := rfl

/-- Unfolding lemma: the flag after a render pass. -/
theorem renderPass_flag (s : AppState) (inp : RenderInputs) :
    (renderPass s inp).1.session.load_knowledge_base
      = (inp.load_button_clicked || s.session.load_knowledge_base) := rfl

/-- Unfolding lemma: the cache after a render pass. -/
theorem renderPass_cache (s : AppState) (inp : RenderInputs) :
    (renderPass s inp).1.lkb_cache
      = (renderLoadStep s inp (inp.load_button_clicked || s.session.load_knowledge_base)).2.1 := rfl

/-- Unfolding lemma: the effect log of a render pass, segment by segment. -/
theorem renderPass_effects (s : AppState) (inp : RenderInputs) :
    (renderPass s inp).2.2
      = headerWidgets
        ++ (renderLoadStep s inp (inp.load_button_clicked || s.session.load_knowledge_base)).2.2
        ++ chatHeaderWidgets
        ++ (renderChatStep s.session.chat_history inp
             (renderLoadStep s inp (inp.load_button_clicked || s.session.load_knowledge_base)).1).2
        ++ display_chat_history (renderChatStep s.session.chat_history inp
             (renderLoadStep s inp (inp.load_button_clicked || s.session.load_knowledge_base)).1).1
        ++ cssWidget := rfl

/-- With no knowledge base, the chat block does nothing. -/
theorem renderChatStep_none (h : List (String × String)) (inp : RenderInputs) :
    renderChatStep h inp none = (h, []) := by
  unfold renderChatStep
  split <;> rfl

/-- The display loop is a map over the transcript in insertion order. -/
theorem display_eq_map (h : List (String × String)) :
    display_chat_history h = h.map render_chat_entry := by
  induction h with
  | nil => rfl
  | cons e t ih => simp [display_chat_history, ih]

/-- Each displayed transcript entry is a widget. -/
theorem render_chat_entry_widget (p : Effect → Bool) (hp : ∀ d, p (Effect.widget d) = false)
    (e : String × String) : p (render_chat_entry e) = false := by
  unfold render_chat_entry
  split <;> exact hp _

/-- No effect scanner rejecting widgets fires on the display loop. -/
theorem display_any_false (p : Effect → Bool) (hp : ∀ d, p (Effect.widget d) = false)
    (h : List (String × String)) : (display_chat_history h).any p = false := by
  induction h with
  | nil => rfl
  | cons e t ih =>
    simp only [display_chat_history, List.any_cons, render_chat_entry_widget p hp e,
      Bool.false_or]
    exact ih

/-- A non-widget effect never appears in the display loop's output. -/
theorem not_mem_display (x : Effect) (hx : ∀ d, x ≠ Effect.widget d)
    (h : List (String × String)) : x ∉ display_chat_history h := by
  induction h with
  | nil => simp [display_chat_history]
  | cons e t ih =>
    simp only [display_chat_history, List.mem_cons, not_or]
    refine ⟨?_, ih⟩
    unfold render_chat_entry
    split <;> exact hx _

/-- C1 witness: concrete credential values exercising the amended claim. -/
theorem startup_check_behavior_witness :
    (script_pass (some "groq-key") (some "") initialState quietInputs).2.2
      = [Effect.stError missingKeysMsg] ∧
    script_pass (some "groq-key") (some "google-key") initialState quietInputs
      = renderPass initialState quietInputs :=
  ⟨(startup_check_behavior "groq-key" "google-key" none initialState quietInputs
      (by decide) (by decide)).2.2.2.2.1,
   (startup_check_behavior "groq-key" "google-key" none initialState quietInputs
      (by decide) (by decide)).2.2.2.2.2.2⟩

/-- C2 (counterexample): with a knowledge base loaded and the example
question asked, an agent response whose `content` attribute is the empty
string yields the transcript entry ("Assistant", "") — the appended
assistant text is empty, contradicting the claim's non-empty guarantee. -/
theorem empty_assistant_text_counterexample :
    (renderPass loadedState emptyContentInputs).2.1.isSome = true ∧
    (renderPass loadedState emptyContentInputs).1.session.chat_history
      = [("You", "What is machine learning?"), ("Assistant", "")] := by
  decide

/-- C2 (amended): for every question submitted while a knowledge base is
loaded, if the agent call returns normally then exactly two transcript
entries are appended, in order: ("You", the question) then ("Assistant",
the response's `content` attribute when present and its string conversion
otherwise); that assistant text may be empty when the extracted text is
empty. -/
theorem chat_turn_appends_pair (s : AppState) (inp : RenderInputs) (r : RunResponse)
    (hkb : (renderPass s inp).2.1.isSome = true)
    (hq : inp.user_input ≠ "")
    (hr : inp.agent_outcome = AgentOutcome.ok r) :
    (renderPass s inp).1.session.chat_history
      = s.session.chat_history
        ++ [("You", inp.user_input), ("Assistant", clean_response r)] := by
  rw [renderPass_kb] at hkb
  rw [renderPass_hist]
  rcases hx : (renderLoadStep s inp (inp.load_button_clicked || s.session.load_knowledge_base)).1
    with _ | kb
  · rw [hx] at hkb
    simp at hkb
  · simp [renderChatStep, hq, handle_question, hr]

/-- C2 witness: the example question with a concrete normal response. -/
theorem chat_turn_appends_pair_witness :
    (renderPass loadedState okInputs).2.1.isSome = true ∧
    (renderPass loadedState okInputs).1.session.chat_history
      = loadedState.session.chat_history
        ++ [("You", okInputs.user_input),
            ("Assistant", clean_response
              { content := some "Machine learning is a subfield of AI.", str_value := "RunResponse" })] :=
  ⟨by decide,
   chat_turn_appends_pair loadedState okInputs
     { content := some "Machine learning is a subfield of AI.", str_value := "RunResponse" }
     (by decide) (by decide) rfl⟩

/-- C3 (counterexample): an exception that is NOT a `groq.APIStatusError`
but whose text contains "Request too large" is routed to the generic
unexpected-error banner, not the targeted "too large" message — the
targeted routing of app.py line 189 only applies inside the
`except groq.APIStatusError` arm. The transcript is still unchanged. -/
theorem too_large_routing_counterexample :
    pyStrIn requestTooLargeMarker tooLargeErrText = true ∧
    (renderPass loadedState otherExcTooLargeInputs).2.1.isSome = true ∧
    Effect.stError tooLargeMsg ∉ (renderPass loadedState otherExcTooLargeInputs).2.2 ∧
    Effect.stError ("An unexpected error occurred: " ++ tooLargeErrText)
      ∈ (renderPass loadedState otherExcTooLargeInputs).2.2 ∧
    (renderPass loadedState otherExcTooLargeInputs).1.session.chat_history
      = loadedState.session.chat_history := by
  decide

/-- C3 (amended): for every question submitted while a knowledge base is
loaded: if the agent call raises a `groq.APIStatusError` whose text
contains "Request too large", the targeted "too large" banner is shown; if
it raises a `groq.APIStatusError` without that marker, the generic
"An error occurred" banner is shown; if it raises any other exception
(even one whose text contains the marker), the generic "An unexpected
error occurred" banner is shown. In every exception case the transcript is
unchanged — no partial turn is appended. -/
theorem chat_error_routing (s : AppState) (inp : RenderInputs) (msg : String)
    (hkb : (renderPass s inp).2.1.isSome = true)
    (hq : inp.user_input ≠ "") :
    (inp.agent_outcome = AgentOutcome.apiStatusError msg →
      (renderPass s inp).1.session.chat_history = s.session.chat_history ∧
      (pyStrIn requestTooLargeMarker msg = true →
        Effect.stError tooLargeMsg ∈ (renderPass s inp).2.2) ∧
      (pyStrIn requestTooLargeMarker msg = false →
        Effect.stError ("An error occurred: " ++ msg) ∈ (renderPass s inp).2.2)) ∧
    (inp.agent_outcome = AgentOutcome.otherException msg →
      (renderPass s inp).1.session.chat_history = s.session.chat_history ∧
      Effect.stError ("An unexpected error occurred: " ++ msg) ∈ (renderPass s inp).2.2) := by
  rw [renderPass_kb] at hkb
  rw [renderPass_hist, renderPass_effects]
  rcases hx : (renderLoadStep s inp (inp.load_button_clicked || s.session.load_knowledge_base)).1
    with _ | kb
  · rw [hx] at hkb
    simp at hkb
  · constructor
    · intro hA
      refine ⟨?_, ?_, ?_⟩
      · simp [renderChatStep, hq, handle_question, hA]
        split <;> rfl
      · intro hm
        simp [renderChatStep, hq, handle_question, hA, hm]
      · intro hm
        simp [renderChatStep, hq, handle_question, hA, hm]
    · intro hO
      refine ⟨?_, ?_⟩
      · simp [renderChatStep, hq, handle_question, hO]
      · simp [renderChatStep, hq, handle_question, hO]

/-- C3 witness: the two exception shapes at concrete inputs. -/
theorem chat_error_routing_witness :
    ((renderPass loadedState apiErrTooLargeInputs).1.session.chat_history
      = loadedState.session.chat_history ∧
     Effect.stError tooLargeMsg ∈ (renderPass loadedState apiErrTooLargeInputs).2.2) ∧
    ((renderPass loadedState otherExcTooLargeInputs).1.session.chat_history
      = loadedState.session.chat_history ∧
     Effect.stError ("An unexpected error occurred: " ++ tooLargeErrText)
      ∈ (renderPass loadedState otherExcTooLargeInputs).2.2) :=
  ⟨⟨((chat_error_routing loadedState apiErrTooLargeInputs tooLargeErrText
        (by decide) (by decide)).1 rfl).1,
    ((chat_error_routing loadedState apiErrTooLargeInputs tooLargeErrText
        (by decide) (by decide)).1 rfl).2.1 (by decide)⟩,
   (chat_error_routing loadedState otherExcTooLargeInputs tooLargeErrText
        (by decide) (by decide)).2 rfl⟩

/-- The load branch never constructs or invokes the chat agent. -/
theorem renderLoadStep_no_agent (s : AppState) (inp : RenderInputs) (flag : Bool) :
    (renderLoadStep s inp flag).2.2.any isAgentEffect = false := by
  unfold renderLoadStep
  cases flag with
  | false => rfl
  | true =>
    rcases hc : s.lkb_cache with _ | v
    · rcases hk : create_combined_knowledge_base inp.pdf_url_input inp.uploaded_pdf_file
        inp.website_url_input inp.temp_pdf_path with _ | k <;>
        simp [load_knowledge_base, load_knowledge_base_body, hc, hk, isAgentEffect]
    · rcases v with _ | k <;> simp [load_knowledge_base, hc, isAgentEffect]

/-- C8: for every submitted question while no knowledge base is loaded (the
pass's combined handle is null), the chat agent is neither constructed nor
invoked and the transcript is unchanged. -/
theorem no_kb_skips_agent (s : AppState) (inp : RenderInputs)
    (h : (renderPass s inp).2.1 = none) :
    (renderPass s inp).1.session.chat_history = s.session.chat_history ∧
    callsAgent (renderPass s inp).2.2 = false := by
  rw [renderPass_kb] at h
  refine ⟨?_, ?_⟩
  · rw [renderPass_hist, h, renderChatStep_none]
  · rw [renderPass_effects, h, renderChatStep_none]
    simp [callsAgent, List.any_append, headerWidgets, chatHeaderWidgets, cssWidget,
      isAgentEffect, renderLoadStep_no_agent,
      display_any_false isAgentEffect (fun d => rfl)]

/-- C8 witness: a question submitted in a session that never loaded. -/
theorem no_kb_skips_agent_witness :
    (renderPass initialState questionNoKbInputs).1.session.chat_history
      = initialState.session.chat_history ∧
    callsAgent (renderPass initialState questionNoKbInputs).2.2 = false :=
  no_kb_skips_agent initialState questionNoKbInputs (by decide)

/-- If any of the three source inputs is populated, the aggregator returns
a non-null combined handle. -/
theorem create_combined_isSome_of_populated (p : String) (u : Option String) (w tp : String)
    (hpop : p ≠ "" ∨ u.isSome = true ∨ w ≠ "") :
    (create_combined_knowledge_base p u w tp).isSome = true := by
  rcases hpop with h | h | h <;>
    by_cases hp : p = "" <;> by_cases hu : u.isSome = true <;> by_cases hw : w = "" <;>
    simp_all [create_combined_knowledge_base]

/-- C5 (amended): if all three source inputs are empty when a load has been
requested and the session's memoized load has not yet run (cold cache), the
aggregator returns no combined knowledge base, `knowledge_base.load` is
never invoked, and the UI shows the no-sources warning and not the
success message. -/
theorem all_empty_load_warns (s : AppState) (inp : RenderInputs)
    (hcache : s.lkb_cache = none)
    (hflag : (inp.load_button_clicked || s.session.load_knowledge_base) = true)
    (h1 : inp.pdf_url_input = "") (h2 : inp.uploaded_pdf_file = none)
    (h3 : inp.website_url_input = "") :
    create_combined_knowledge_base inp.pdf_url_input inp.uploaded_pdf_file
      inp.website_url_input inp.temp_pdf_path = none ∧
    (renderPass s inp).2.1 = none ∧
    invokesKbLoad (renderPass s inp).2.2 = false ∧
    Effect.stWarning noSourcesMsg ∈ (renderPass s inp).2.2 ∧
    Effect.stSuccess successMsg ∉ (renderPass s inp).2.2 := by
  have hcomb : create_combined_knowledge_base inp.pdf_url_input inp.uploaded_pdf_file
      inp.website_url_input inp.temp_pdf_path = none := by
    simp [create_combined_knowledge_base, h1, h2, h3]
  have hls : renderLoadStep s inp (inp.load_button_clicked || s.session.load_knowledge_base)
      = (none, some none, [Effect.kbBuild, Effect.stWarning noSourcesMsg]) := by
    rw [hflag]
    simp [renderLoadStep, load_knowledge_base, load_knowledge_base_body, hcache, hcomb]
  have hno : (renderPass s inp).2.1 = none := by rw [renderPass_kb, hls]
  refine ⟨hcomb, hno, ?_, ?_, ?_⟩
  · rw [renderPass_effects, hls]
    simp [renderChatStep_none, invokesKbLoad, List.any_append, headerWidgets,
      chatHeaderWidgets, cssWidget, isKbLoadEffect,
      display_any_false isKbLoadEffect (fun d => rfl)]
  · rw [renderPass_effects, hls]
    simp [headerWidgets, chatHeaderWidgets, cssWidget]
  · rw [renderPass_effects, hls]
    have hd := not_mem_display (Effect.stSuccess successMsg) (fun d => by simp)
      (renderChatStep s.session.chat_history inp (none : Option CombinedKnowledgeBase)).1
    simp [renderChatStep_none, headerWidgets, chatHeaderWidgets, cssWidget]
    simpa [renderChatStep_none] using hd

/-- C5 witness: load pressed on a fresh session with all sources empty. -/
theorem all_empty_load_warns_witness :
    create_combined_knowledge_base emptyLoadInputs.pdf_url_input emptyLoadInputs.uploaded_pdf_file
      emptyLoadInputs.website_url_input emptyLoadInputs.temp_pdf_path = none ∧
    (renderPass initialState emptyLoadInputs).2.1 = none ∧
    invokesKbLoad (renderPass initialState emptyLoadInputs).2.2 = false ∧
    Effect.stWarning noSourcesMsg ∈ (renderPass initialState emptyLoadInputs).2.2 ∧
    Effect.stSuccess successMsg ∉ (renderPass initialState emptyLoadInputs).2.2 :=
  all_empty_load_warns initialState emptyLoadInputs rfl (by decide) rfl rfl rfl

/-- C6 (amended): if at least one source input is populated when a load has
been requested and the session's memoized load has not yet run (cold
cache), the aggregator's combined handle is non-null; and whenever the
aggregator yields a handle `k`, that handle's load operation is invoked
with `recreate := true` and the UI shows the success message. -/
theorem populated_load_success (s : AppState) (inp : RenderInputs) (k : CombinedKnowledgeBase)
    (hcache : s.lkb_cache = none)
    (hflag : (inp.load_button_clicked || s.session.load_knowledge_base) = true)
    (hpop : inp.pdf_url_input ≠ "" ∨ inp.uploaded_pdf_file.isSome = true ∨
      inp.website_url_input ≠ "") :
    (create_combined_knowledge_base inp.pdf_url_input inp.uploaded_pdf_file
      inp.website_url_input inp.temp_pdf_path).isSome = true ∧
    (create_combined_knowledge_base inp.pdf_url_input inp.uploaded_pdf_file
        inp.website_url_input inp.temp_pdf_path = some k →
      (renderPass s inp).2.1 = some k ∧
      Effect.kbLoad k true ∈ (renderPass s inp).2.2 ∧
      Effect.stSuccess successMsg ∈ (renderPass s inp).2.2) := by
  refine ⟨create_combined_isSome_of_populated _ _ _ _ hpop, ?_⟩
  intro hk
  have hls : renderLoadStep s inp (inp.load_button_clicked || s.session.load_knowledge_base)
      = (some k, some (some k),
         [Effect.kbBuild, Effect.kbLoad k true, Effect.stSuccess successMsg]) := by
    rw [hflag]
    simp [renderLoadStep, load_knowledge_base, load_knowledge_base_body, hcache, hk]
  refine ⟨by rw [renderPass_kb, hls], ?_, ?_⟩
  · rw [renderPass_effects, hls]
    simp [headerWidgets, chatHeaderWidgets, cssWidget]
  · rw [renderPass_effects, hls]
    simp [headerWidgets, chatHeaderWidgets, cssWidget]

/-- C6 witness: first load with only the website source populated. -/
theorem populated_load_success_witness :
    (create_combined_knowledge_base websiteLoadInputs.pdf_url_input
      websiteLoadInputs.uploaded_pdf_file websiteLoadInputs.website_url_input
      websiteLoadInputs.temp_pdf_path).isSome = true ∧
    (create_combined_knowledge_base websiteLoadInputs.pdf_url_input
        websiteLoadInputs.uploaded_pdf_file websiteLoadInputs.website_url_input
        websiteLoadInputs.temp_pdf_path = some websiteOnlyKB →
      (renderPass initialState websiteLoadInputs).2.1 = some websiteOnlyKB ∧
      Effect.kbLoad websiteOnlyKB true ∈ (renderPass initialState websiteLoadInputs).2.2 ∧
      Effect.stSuccess successMsg ∈ (renderPass initialState websiteLoadInputs).2.2) :=
  populated_load_success initialState websiteLoadInputs websiteOnlyKB rfl (by decide)
    (Or.inr (Or.inr (by decide)))

/-- `countKbBuilds` distributes over concatenation of effect logs. -/
theorem countKbBuilds_append (a b : List Effect) :
    countKbBuilds (a ++ b) = countKbBuilds a + countKbBuilds b := by
  simp [countKbBuilds, List.filter_append]

/-- No effect scanner rejecting agent effects and error banners fires on
the chat block's effects. -/
theorem renderChatStep_any_false (p : Effect → Bool)
    (hA : ∀ a, p (Effect.agentCreated a) = false)
    (hR : ∀ q, p (Effect.agentRun q) = false)
    (hE : ∀ m, p (Effect.stError m) = false)
    (h : List (String × String)) (inp : RenderInputs)
    (kb : Option CombinedKnowledgeBase) :
    (renderChatStep h inp kb).2.any p = false := by
  unfold renderChatStep
  split
  · rcases kb with _ | k
    · rfl
    · unfold handle_question
      rcases inp.agent_outcome with r | m | m
      · simp [hA, hR]
      · cases hm : pyStrIn requestTooLargeMarker m <;> simp [hm, hA, hR, hE]
      · simp [hA, hR, hE]
  · rfl

/-- Filter version of `renderChatStep_any_false`. -/
theorem renderChatStep_filter_nil (p : Effect → Bool)
    (hA : ∀ a, p (Effect.agentCreated a) = false)
    (hR : ∀ q, p (Effect.agentRun q) = false)
    (hE : ∀ m, p (Effect.stError m) = false)
    (h : List (String × String)) (inp : RenderInputs)
    (kb : Option CombinedKnowledgeBase) :
    (renderChatStep h inp kb).2.filter p = [] := by
  unfold renderChatStep
  split
  · rcases kb with _ | k
    · rfl
    · unfold handle_question
      rcases inp.agent_outcome with r | m | m
      · simp [List.filter_cons, hA, hR]
      · cases hm : pyStrIn requestTooLargeMarker m <;> simp [hm, List.filter_cons, hA, hR, hE]
      · simp [List.filter_cons, hA, hR, hE]
  · rfl

/-- Filter version of `display_any_false`. -/
theorem display_filter_nil (p : Effect → Bool) (hp : ∀ d, p (Effect.widget d) = false)
    (h : List (String × String)) : (display_chat_history h).filter p = [] := by
  induction h with
  | nil => rfl
  | cons e t ih =>
    simp [display_chat_history, List.filter_cons, render_chat_entry_widget p hp e, ih]

/-- A render pass whose session already holds a cached load result keeps
the cache, never re-runs the body, never re-invokes the index load, and
(when the flag is set) serves the cached handle. -/
theorem renderPass_cache_hit (s : AppState) (inp : RenderInputs)
    (v : Option CombinedKnowledgeBase) (hc : s.lkb_cache = some v) :
    (renderPass s inp).1.lkb_cache = some v ∧
    countKbBuilds (renderPass s inp).2.2 = 0 ∧
    invokesKbLoad (renderPass s inp).2.2 = false ∧
    (s.session.load_knowledge_base = true → (renderPass s inp).2.1 = v) := by
  cases hb : (inp.load_button_clicked || s.session.load_knowledge_base) with
  | false =>
    have hls : renderLoadStep s inp false = (none, s.lkb_cache, []) := rfl
    refine ⟨?_, ?_, ?_, fun ht => ?_⟩
    · rw [renderPass_cache, hb, hls, hc]
    · rw [renderPass_effects, hb, hls, renderChatStep_none]
      simp [countKbBuilds, List.filter_append, headerWidgets, chatHeaderWidgets, cssWidget,
        isKbBuildEffect, display_filter_nil isKbBuildEffect (fun d => rfl)]
    · rw [renderPass_effects, hb, hls, renderChatStep_none]
      simp [invokesKbLoad, List.any_append, headerWidgets, chatHeaderWidgets, cssWidget,
        isKbLoadEffect, display_any_false isKbLoadEffect (fun d => rfl)]
    · rw [ht, Bool.or_true] at hb
      cases hb
  | true =>
    rcases v with _ | k
    · have hls : renderLoadStep s inp true
          = (none, some none, [Effect.stWarning noSourcesMsg]) := by
        simp [renderLoadStep, load_knowledge_base, hc]
      refine ⟨?_, ?_, ?_, fun _ => ?_⟩
      · rw [renderPass_cache, hb, hls]
      · rw [renderPass_effects, hb, hls, renderChatStep_none]
        simp [countKbBuilds, List.filter_append, headerWidgets, chatHeaderWidgets, cssWidget,
          isKbBuildEffect, display_filter_nil isKbBuildEffect (fun d => rfl)]
      · rw [renderPass_effects, hb, hls, renderChatStep_none]
        simp [invokesKbLoad, List.any_append, headerWidgets, chatHeaderWidgets, cssWidget,
          isKbLoadEffect, display_any_false isKbLoadEffect (fun d => rfl)]
      · rw [renderPass_kb, hb, hls]
    · have hls : renderLoadStep s inp true
          = (some k, some (some k), [Effect.stSuccess successMsg]) := by
        simp [renderLoadStep, load_knowledge_base, hc]
      refine ⟨?_, ?_, ?_, fun _ => ?_⟩
      · rw [renderPass_cache, hb, hls]
      · rw [renderPass_effects, hb, hls]
        simp [countKbBuilds, List.filter_append, headerWidgets, chatHeaderWidgets, cssWidget,
          isKbBuildEffect,
          renderChatStep_filter_nil isKbBuildEffect (fun a => rfl) (fun q => rfl) (fun m => rfl),
          display_filter_nil isKbBuildEffect (fun d => rfl)]
      · rw [renderPass_effects, hb, hls]
        simp [invokesKbLoad, List.any_append, headerWidgets, chatHeaderWidgets, cssWidget,
          isKbLoadEffect,
          renderChatStep_any_false isKbLoadEffect (fun a => rfl) (fun q => rfl) (fun m => rfl),
          display_any_false isKbLoadEffect (fun d => rfl)]
      · rw [renderPass_kb, hb, hls]

/-- A render pass with a cold cache and the flag set runs the body exactly
once and fills the cache. -/
theorem renderPass_cache_miss (s : AppState) (inp : RenderInputs)
    (hc : s.lkb_cache = none)
    (hb : (inp.load_button_clicked || s.session.load_knowledge_base) = true) :
    ((renderPass s inp).1.lkb_cache).isSome = true ∧
    countKbBuilds (renderPass s inp).2.2 = 1 := by
  rcases hk : create_combined_knowledge_base inp.pdf_url_input inp.uploaded_pdf_file
      inp.website_url_input inp.temp_pdf_path with _ | k
  · have hls : renderLoadStep s inp true
        = (none, some none, [Effect.kbBuild, Effect.stWarning noSourcesMsg]) := by
      simp [renderLoadStep, load_knowledge_base, load_knowledge_base_body, hc, hk]
    constructor
    · rw [renderPass_cache, hb, hls]
      rfl
    · rw [renderPass_effects, hb, hls, renderChatStep_none]
      simp [countKbBuilds, List.filter_append, headerWidgets, chatHeaderWidgets, cssWidget,
        isKbBuildEffect, display_filter_nil isKbBuildEffect (fun d => rfl)]
  · have hls : renderLoadStep s inp true
        = (some k, some (some k),
           [Effect.kbBuild, Effect.kbLoad k true, Effect.stSuccess successMsg]) := by
      simp [renderLoadStep, load_knowledge_base, load_knowledge_base_body, hc, hk]
    constructor
    · rw [renderPass_cache, hb, hls]
      rfl
    · rw [renderPass_effects, hb, hls]
      simp [countKbBuilds, List.filter_append, headerWidgets, chatHeaderWidgets, cssWidget,
        isKbBuildEffect,
        renderChatStep_filter_nil isKbBuildEffect (fun a => rfl) (fun q => rfl) (fun m => rfl),
        display_filter_nil isKbBuildEffect (fun d => rfl)]

/-- A render pass with the flag unset leaves the cache alone and never runs
the body. -/
theorem renderPass_no_flag (s : AppState) (inp : RenderInputs)
    (hb : (inp.load_button_clicked || s.session.load_knowledge_base) = false) :
    (renderPass s inp).1.lkb_cache = s.lkb_cache ∧
    countKbBuilds (renderPass s inp).2.2 = 0 := by
  have hls : renderLoadStep s inp false = (none, s.lkb_cache, []) := rfl
  constructor
  · rw [renderPass_cache, hb, hls]
  · rw [renderPass_effects, hb, hls, renderChatStep_none]
    simp [countKbBuilds, List.filter_append, headerWidgets, chatHeaderWidgets, cssWidget,
      isKbBuildEffect, display_filter_nil isKbBuildEffect (fun d => rfl)]

/-- Across any session, the number of executions of the cached
`load_knowledge_base` body is bounded by one more than an already-warm
cache allows. -/
theorem run_trace_builds_le (inps : List RenderInputs) :
    ∀ s : AppState, countKbBuilds (run_trace s inps).2
      ≤ if s.lkb_cache.isSome then 0 else 1 := by
  induction inps with
  | nil =>
    intro s
    simp [run_trace, countKbBuilds]
  | cons inp rest ih =>
    intro s
    have hstep : countKbBuilds (run_trace s (inp :: rest)).2
        = countKbBuilds (renderPass s inp).2.2
          + countKbBuilds (run_trace (renderPass s inp).1 rest).2 := by
      show countKbBuilds ((renderPass s inp).2.2 ++ (run_trace (renderPass s inp).1 rest).2) = _
      exact countKbBuilds_append _ _
    rcases hc : s.lkb_cache with _ | v
    · cases hb : (inp.load_button_clicked || s.session.load_knowledge_base) with
      | false =>
        have h3 := renderPass_no_flag s inp hb
        have hrest := ih (renderPass s inp).1
        rw [h3.1, hc] at hrest
        simp at hrest
        rw [hstep, h3.2]
        simpa [hc] using hrest
      | true =>
        have h2 := renderPass_cache_miss s inp hc hb
        have hrest := ih (renderPass s inp).1
        rcases hsome : (renderPass s inp).1.lkb_cache with _ | w
        · rw [hsome] at h2
          simp at h2
        · rw [hsome] at hrest
          simp at hrest
          rw [hstep, h2.2]
          simp [hc, hrest]
    · have h1 := renderPass_cache_hit s inp v hc
      have hrest := ih (renderPass s inp).1
      rw [h1.1] at hrest
      simp at hrest
      rw [hstep, h1.2.1]
      simp [hc, hrest]

/-- C7: the knowledge-base load is memoized per session/process: a cached
`load_knowledge_base` call returns the cached value with no effects; on a
render pass whose session already holds the cached result, the cache is
preserved, the body does not run, no index load is invoked, and (when the
flag is set) the pass serves the cached handle; and over any whole session
the body (builder plus recreate-load) runs at most once. -/
theorem load_memoized (s : AppState) (inp : RenderInputs)
    (v : Option CombinedKnowledgeBase) (inps : List RenderInputs)
    (hc : s.lkb_cache = some v) :
    load_knowledge_base (some v) inp = (v, some v, []) ∧
    (renderPass s inp).1.lkb_cache = some v ∧
    countKbBuilds (renderPass s inp).2.2 = 0 ∧
    invokesKbLoad (renderPass s inp).2.2 = false ∧
    (s.session.load_knowledge_base = true → (renderPass s inp).2.1 = v) ∧
    countKbBuilds (run_script inps).2 ≤ 1 := by
  have h := renderPass_cache_hit s inp v hc
  refine ⟨rfl, h.1, h.2.1, h.2.2.1, h.2.2.2, ?_⟩
  have hb := run_trace_builds_le inps initialState
  simpa [run_script, initialState] using hb

/-- C7 witness: a warm session plus a two-pass session that presses load
twice. -/
theorem load_memoized_witness :
    load_knowledge_base (some (some sampleKB)) quietInputs
      = (some sampleKB, some (some sampleKB), []) ∧
    (renderPass loadedState quietInputs).1.lkb_cache = some (some sampleKB) ∧
    countKbBuilds (renderPass loadedState quietInputs).2.2 = 0 ∧
    invokesKbLoad (renderPass loadedState quietInputs).2.2 = false ∧
    (loadedState.session.load_knowledge_base = true →
      (renderPass loadedState quietInputs).2.1 = some sampleKB) ∧
    countKbBuilds (run_script [emptyLoadInputs, emptyLoadInputs]).2 ≤ 1 :=
  load_memoized loadedState quietInputs (some sampleKB) [emptyLoadInputs, emptyLoadInputs] rfl

/-- Whatever the cache held, a `load_knowledge_base` call leaves it filled. -/
theorem load_knowledge_base_cache_some (c : Option (Option CombinedKnowledgeBase))
    (inp : RenderInputs) : ((load_knowledge_base c inp).2.1).isSome = true := by
  cases c <;> rfl

/-- The session flag survives every render pass of a session, once true. -/
theorem run_trace_flag (inps : List RenderInputs) :
    ∀ s : AppState, s.session.load_knowledge_base = true →
      (run_trace s inps).1.session.load_knowledge_base = true := by
  induction inps with
  | nil =>
    intro s h
    exact h
  | cons inp rest ih =>
    intro s h
    show (run_trace (renderPass s inp).1 rest).1.session.load_knowledge_base = true
    exact ih (renderPass s inp).1 (by simp [renderPass_flag, h])

/-- C10: pressing the load button sets the session flag, and once the flag
is true no render pass ever clears it — it stays true across any remainder
of the session — and every pass made with the flag set leaves the memoized
cache filled (the load path is taken, served from the cache). -/
theorem load_flag_latched (s0 s : AppState) (inp inp2 : RenderInputs)
    (inps : List RenderInputs)
    (hclick : inp2.load_button_clicked = true)
    (h : s.session.load_knowledge_base = true) :
    (renderPass s0 inp2).1.session.load_knowledge_base = true ∧
    (renderPass s inp).1.session.load_knowledge_base = true ∧
    (run_trace s inps).1.session.load_knowledge_base = true ∧
    ((renderPass s inp).1.lkb_cache).isSome = true := by
  refine ⟨?_, ?_, run_trace_flag inps s h, ?_⟩
  · simp [renderPass_flag, hclick]
  · simp [renderPass_flag, h]
  · rw [renderPass_cache]
    have hb : (inp.load_button_clicked || s.session.load_knowledge_base) = true := by
      simp [h]
    rw [hb]
    simp [renderLoadStep, load_knowledge_base_cache_some]

/-- C10 witness: a click on a fresh session, and a flagged session run for
two further passes. -/
theorem load_flag_latched_witness :
    (renderPass initialState emptyLoadInputs).1.session.load_knowledge_base = true ∧
    (renderPass loadedState quietInputs).1.session.load_knowledge_base = true ∧
    (run_trace loadedState [quietInputs, questionNoKbInputs]).1.session.load_knowledge_base = true ∧
    ((renderPass loadedState quietInputs).1.lkb_cache).isSome = true :=
  load_flag_latched initialState loadedState quietInputs emptyLoadInputs
    [quietInputs, questionNoKbInputs] rfl rfl

/-- Appending one full ("You", q) / ("Assistant", a) turn preserves the
transcript pairing discipline. -/
theorem wellPaired_append :
    ∀ (h : List (String × String)) (q a : String), wellPaired h = true →
      wellPaired (h ++ [("You", q), ("Assistant", a)]) = true
  | [], q, a, _ => by simp [wellPaired]
  | [x], _, _, hw => by simp [wellPaired] at hw
  | (s1, t1) :: (s2, t2) :: rest, q, a, hw => by
    simp only [wellPaired, Bool.and_eq_true] at hw
    simp only [List.cons_append, wellPaired, Bool.and_eq_true]
    exact ⟨hw.1, wellPaired_append rest q a hw.2⟩

/-- A well-paired transcript has even length. -/
theorem wellPaired_length_even :
    ∀ h : List (String × String), wellPaired h = true → h.length % 2 = 0
  | [], _ => rfl
  | [x], hw => by simp [wellPaired] at hw
  | (s1, t1) :: (s2, t2) :: rest, hw => by
    simp only [wellPaired, Bool.and_eq_true] at hw
    have := wellPaired_length_even rest hw.2
    simp only [List.length_cons]
    omega

/-- The chat `try` block preserves the transcript pairing discipline. -/
theorem handle_question_wellPaired (h : List (String × String)) (q : String)
    (o : AgentOutcome) (hw : wellPaired h = true) :
    wellPaired (handle_question h q o).1 = true := by
  rcases o with r | m | m
  · simpa [handle_question] using wellPaired_append h q (clean_response r) hw
  · unfold handle_question
    cases hm : pyStrIn requestTooLargeMarker m <;> simpa [hm] using hw
  · simpa [handle_question] using hw

/-- The chat block preserves the transcript pairing discipline. -/
theorem renderChatStep_wellPaired (h : List (String × String)) (inp : RenderInputs)
    (kb : Option CombinedKnowledgeBase) (hw : wellPaired h = true) :
    wellPaired (renderChatStep h inp kb).1 = true := by
  unfold renderChatStep
  split
  · rcases kb with _ | k
    · exact hw
    · exact handle_question_wellPaired h inp.user_input inp.agent_outcome hw
  · exact hw

/-- A render pass preserves the transcript pairing discipline. -/
theorem renderPass_wellPaired (s : AppState) (inp : RenderInputs)
    (hw : wellPaired s.session.chat_history = true) :
    wellPaired (renderPass s inp).1.session.chat_history = true := by
  rw [renderPass_hist]
  exact renderChatStep_wellPaired _ _ _ hw

/-- Any session run preserves the transcript pairing discipline. -/
theorem run_trace_wellPaired (inps : List RenderInputs) :
    ∀ s : AppState, wellPaired s.session.chat_history = true →
      wellPaired (run_trace s inps).1.session.chat_history = true := by
  induction inps with
  | nil =>
    intro s hw
    exact hw
  | cons inp rest ih =>
    intro s hw
    show wellPaired (run_trace (renderPass s inp).1 rest).1.session.chat_history = true
    exact ih (renderPass s inp).1 (renderPass_wellPaired s inp hw)

/-- C9: after any session of interactions from the initial state, the
transcript consists of consecutive ("You", _) then ("Assistant", _) pairs —
a user entry is appended only together with its assistant entry — so its
length is even; and the display loop renders exactly the transcript's
entries in insertion order. -/
theorem transcript_paired_invariant (inps : List RenderInputs) :
    wellPaired (run_script inps).1.session.chat_history = true ∧
    (run_script inps).1.session.chat_history.length % 2 = 0 ∧
    display_chat_history (run_script inps).1.session.chat_history
      = ((run_script inps).1.session.chat_history).map render_chat_entry := by
  have hw : wellPaired (run_script inps).1.session.chat_history = true :=
    run_trace_wellPaired inps initialState rfl
  exact ⟨hw, wellPaired_length_even _ hw, display_eq_map _⟩

/-- C5 (counterexample): in a session that already loaded a website source,
clearing all three inputs and requesting a load again serves the memoized
handle: the success banner is shown and the no-sources warning is not,
contradicting the claim for sessions with a warm cache. -/
theorem all_empty_load_warns_counterexample :
    quietInputs.pdf_url_input = "" ∧ quietInputs.uploaded_pdf_file = none ∧
    quietInputs.website_url_input = "" ∧
    (renderPass initialState websiteLoadInputs).1.session.load_knowledge_base = true ∧
    Effect.stSuccess successMsg
      ∈ (renderPass (renderPass initialState websiteLoadInputs).1 quietInputs).2.2 ∧
    Effect.stWarning noSourcesMsg
      ∉ (renderPass (renderPass initialState websiteLoadInputs).1 quietInputs).2.2 := by
  decide

/-- C6 (counterexample): in a session whose first load was pressed with all
sources empty, populating the website input and pressing load again still
serves the memoized null handle: the combined handle stays null, no index
load is invoked, and no success banner is shown, contradicting the claim
for sessions with a warm cache. -/
theorem populated_load_success_counterexample :
    websiteLoadInputs.website_url_input ≠ "" ∧
    websiteLoadInputs.load_button_clicked = true ∧
    (renderPass (renderPass initialState emptyLoadInputs).1 websiteLoadInputs).2.1 = none ∧
    invokesKbLoad
      (renderPass (renderPass initialState emptyLoadInputs).1 websiteLoadInputs).2.2 = false ∧
    Effect.stSuccess successMsg
      ∉ (renderPass (renderPass initialState emptyLoadInputs).1 websiteLoadInputs).2.2 := by
  decide
